import Mathlib

/-!
Verification development for the quiz application in `src/quiz_app.py`.

The Python program is a Streamlit script.  We embed the parts of it that
carry the program logic:

* the leaderboard sort and player-rank lookup (lines 193-194 and 253-254);
* the per-question countdown arithmetic (lines 148-159);
* the question-advance transition shared by the timeout branch
  (lines 162-175) and the submit branch (lines 178-188), including the
  `save_score` row it appends (lines 45-48);
* the restart handler (lines 267-271);
* `load_questions` (lines 86-89) and `load_leaderboard` (lines 50-56),
  with the outcome of the external spreadsheet call made an explicit
  parameter, since the Python code installs no exception handler around
  either call.

Streamlit's `st.session_state` is mutable state that survives an exception
thrown later in the same render pass; we model a failing store call with
`Except`, whose `error` payload carries the mutations performed before the
raising call.
-/

namespace QuizApp

/-- One leaderboard row as appended by `save_score` and read back by
`load_leaderboard`: columns `Name, Score, Total, Percentage`. -/
structure AttemptRecord where
  name : String
  score : Nat
  total : Nat
  percentage : Rat
  deriving Repr, DecidableEq

/-- Round half to even to the nearest integer, on exact rationals.  This is
Python's `round(x)` tie-breaking rule; we work with the exact rational value
rather than its binary floating-point approximation.  With `f = ⌊x⌋` the
fractional part of `x` is `r / den`, and `2 * r` against `den` decides
whether it is below, above, or exactly one half. -/
def roundHalfEven (x : Rat) : Int :=
  let f : Int := x.floor
  let r : Int := x.num - f * (x.den : Int)
  if 2 * r < (x.den : Int) then f
  else if (x.den : Int) < 2 * r then f + 1
  else if f % 2 = 0 then f else f + 1

/-- Python's `round(x, 2)`: round half to even at two decimal places, i.e.
`roundHalfEven (x * 100) / 100`, written with `mkRat` so that the kernel can
evaluate it (`mkRat (x.num * 100) x.den` is exactly `x * 100`). -/
def pyRound2 (x : Rat) : Rat := mkRat (roundHalfEven (mkRat (x.num * 100) x.den)) 100

/-- Sort-order relation of line 193,
`sort_values(by=["Score", "Percentage"], ascending=[False, False])`:
`recLE a b` holds when `a` may come no later than `b`, i.e. `a` has the
strictly larger score, or scores are equal and `a` has at least the
percentage of `b`. -/
def recLE (a b : AttemptRecord) : Prop :=
  b.score < a.score ∨ (a.score = b.score ∧ b.percentage ≤ a.percentage)

instance : DecidableRel recLE := fun a b => by
  unfold recLE
  exact inferInstance

instance : IsTotal AttemptRecord recLE := by
  constructor
  intro a b
  unfold recLE
  rcases Nat.lt_trichotomy a.score b.score with h | h | h
  · exact Or.inr (Or.inl h)
  · rcases le_total b.percentage a.percentage with hp | hp
    · exact Or.inl (Or.inr ⟨h, hp⟩)
    · exact Or.inr (Or.inr ⟨h.symm, hp⟩)
  · exact Or.inl (Or.inl h)

instance : IsTrans AttemptRecord recLE := by
  constructor
  intro a b c hab hbc
  unfold recLE at hab hbc ⊢
  rcases hab with h1 | ⟨h1, h1p⟩
  · rcases hbc with h2 | ⟨h2, _⟩
    · exact Or.inl (h2.trans h1)
    · exact Or.inl (h2 ▸ h1)
  · rcases hbc with h2 | ⟨h2, h2p⟩
    · exact Or.inl (h1 ▸ h2)
    · exact Or.inr ⟨h1.trans h2, h2p.trans h1p⟩

/-- Pandas' multi-column `sort_values` on line 193 (and 231) is a stable
sort by the composite key; we realize it with insertion sort, which is
stable. -/
def sortRecords (records : List AttemptRecord) : List AttemptRecord :=
  List.insertionSort recLE records

/-- Player-rank lookup of lines 253-254:
`rank_df.index[rank_df['Name'] == player_name][0] + 1` on the sorted frame.
The result is the 1-based position of the first row whose `Name` equals the
player's name; `none` models the `IndexError` raised by `[0]` when no row
matches. -/
def player_rank (records : List AttemptRecord) (player : String) : Option Nat :=
  ((sortRecords records).findIdx? (fun r => r.name == player)).map (· + 1)

/-- Leaderboard contract assembled from lines 193-194 (sort, `head(5)`) and
lines 253-254 (player rank). -/
def rank (records : List AttemptRecord) (player : String) :
    List AttemptRecord × Option Nat :=
  ((sortRecords records).take 5, player_rank records player)

/-- One question row of `questions.csv` as produced by `load_questions`
(lines 86-89): the `options` column is a single semicolon-joined string,
split only at render time (line 140). -/
structure Question where
  question : String
  options : String
  answer : String
  deriving Repr, DecidableEq

/-- Option split of line 140: `q["options"].split(";")`.  Python's split on
a one-character separator cuts at every occurrence and keeps empty pieces,
which is `List.splitOnP` on the character data. -/
def parseOptions (s : String) : List String :=
  (s.data.splitOnP (fun c => c == ';')).map (fun cs => String.mk cs)

/-- Result of `load_questions` (lines 86-89): `pd.read_csv("questions.csv")`
followed by `to_dict(orient="records")`.  The argument is `none` when
`questions.csv` is missing or unreadable, in which case `read_csv` raises
and the failure propagates; a readable file yields its rows unchanged — the
function performs no content validation whatsoever. -/
def load_questions : Option (List Question) → Except Unit (List Question)
  | none => .error ()
  | some rows => .ok rows

/-- Outcome of the `get_all_records()` call inside `load_leaderboard`:
either the rows read from the spreadsheet, or a raised gspread error. -/
inductive ReadResult where
  | ok (rows : List AttemptRecord)
  | err
  deriving Repr, DecidableEq

/-- The `load_leaderboard` function (lines 50-56).  A successful read
returns the rows (an empty read yields an empty frame); the function
installs no exception handler, so a failed read propagates. -/
def load_leaderboard : ReadResult → Except Unit (List AttemptRecord)
  | .ok rows => .ok rows
  | .err => .error ()

/-- Leaderboard computation of the in-progress render pass, lines 192-194:
`load_leaderboard()` then sort then `head(5)`.  An exception from the read
propagates past lines 193-194 and out of the render pass. -/
def renderTop5 (res : ReadResult) : Except Unit (List AttemptRecord) :=
  (load_leaderboard res).map (fun rows => (sortRecords rows).take 5)

/-- Per-session quiz state held in `st.session_state` while a quiz runs:
`player_name`, `shuffled_questions`, `current_q`, `score`
(lines 111-124). -/
structure Session where
  player_name : String
  shuffled_questions : List Question
  current_q : Nat
  score : Nat
  deriving Repr, DecidableEq

/-- Session initialization of lines 120-124 (the shuffled order is the
`random.sample` permutation, passed in here): `current_q = 0`,
`score = 0`. -/
def initSession (name : String) (qs : List Question) : Session :=
  { player_name := name, shuffled_questions := qs, current_q := 0, score := 0 }

/-- Row built and appended by `save_score` (lines 45-48):
`percentage = round((score / total) * 100, 2)`; the argument of the rounding
is `score / total * 100 = mkRat (100 * score) total`.  The program only ever
calls this with `total = q_index + 1 ≥ 1`. -/
def save_score (name : String) (score total : Nat) : AttemptRecord :=
  { name := name, score := score, total := total
    percentage := pyRound2 (mkRat (100 * (score : Int)) total) }

/-- One completed question-advance transition.  The timeout branch
(lines 162-175) and the submit branch (lines 178-188) perform the identical
update: compare `st.session_state[f"answer_{i}"]` (the current radio
selection, `none` when nothing was ever selected) with `q["answer"]`,
increment `score` on equality, append the `save_score` row built from the
incremented score and `q_index + 1`, then increment `current_q`.  The
returned record is the appended row (`none` when `current_q` is already past
the last question, where the code takes the completed branch instead). -/
def advance (s : Session) (sel : Option String) : Session × Option AttemptRecord :=
  match s.shuffled_questions[s.current_q]? with
  | none => (s, none)
  | some q =>
    let newScore := s.score + (if sel = some q.answer then 1 else 0)
    ({ s with score := newScore, current_q := s.current_q + 1 },
      some (save_score s.player_name newScore (s.current_q + 1)))

/-- Timeout branch guard of line 162: the advance of lines 163-175 runs only
when the recomputed `remaining` equals zero; otherwise the pass leaves the
session unchanged and keeps waiting. -/
def timeoutAdvance (s : Session) (sel : Option String) (remaining : Int) :
    Session × Option AttemptRecord :=
  if remaining = 0 then advance s sel else (s, none)

/-- Question-advance transition with the outcome of the `save_score` call
made explicit (lines 178-188; the timeout branch is identical).  Python
installs no handler around `save_score`: when the append raises, the
exception propagates out of `run_quiz`, after the score mutation of
line 182 but before the `current_q` increment of line 187.  The `error`
payload is the session state left behind in that case. -/
def advanceWithWrite (s : Session) (q : Question) (sel : Option String)
    (writeOk : Bool) : Except Session (Session × AttemptRecord) :=
  let newScore := s.score + (if sel = some q.answer then 1 else 0)
  if writeOk then
    .ok ({ s with score := newScore, current_q := s.current_q + 1 },
      save_score s.player_name newScore (s.current_q + 1))
  else
    .error { s with score := newScore }

/-- Session state left in `st.session_state` after a question-advance pass,
whether or not the store write succeeded. -/
def resultSession : Except Session (Session × AttemptRecord) → Session
  | .ok (s, _) => s
  | .error s => s

/-- Per-question countdown budget, `time_limit = 15` (line 148). -/
def time_limit : Int := 15

/-- Remaining-time computation of line 154: `max(time_limit - elapsed, 0)`. -/
def remainingTime (elapsed : Int) : Int := max (time_limit - elapsed) 0

/-- Remaining time as recomputed on each render pass from the stored
per-question start timestamp (lines 153-154):
`elapsed = int(time.time() - timer_start)`; timestamps are modelled at
whole-second granularity, where `int` truncation is the identity. -/
def remainingAt (start now : Int) : Int := remainingTime (now - start)

/-- The `st.session_state` keys touched or skipped by the restart handler,
plus nothing else: the name, the four keys the handler deletes
(lines 268-270), and the per-question keys `timer_{i}`, `timer_start_{i}`
and `answer_{i}` created on lines 142-143 and 149-151, kept as association
lists from question index to stored value (`none` in a field means the key
is absent). -/
structure AppState where
  player_name : Option String
  shuffled_questions : Option (List Question)
  current_q : Option Nat
  score : Option Nat
  colors : Option (List String)
  timer_init : List (Nat × Int)
  timer_start : List (Nat × Int)
  answers : List (Nat × Option String)
  deriving Repr, DecidableEq

/-- The Play Again handler, lines 267-271: it deletes exactly the keys
`shuffled_questions`, `current_q`, `score` and `colors` from
`st.session_state` and touches nothing else. -/
def restart (st : AppState) : AppState :=
  { st with
    shuffled_questions := none
    current_q := none
    score := none
    colors := none }

/-- The restart handler paired with the external Score Store: the handler
issues no store call at all, so the store's row list is untouched. -/
def restartWithStore (st : AppState) (store : List AttemptRecord) :
    AppState × List AttemptRecord :=
  (restart st, store)

/-- Session states reachable by the quiz state machine: the fresh session of
lines 120-124, followed by any number of completed question-advance
transitions (each triggered either by the timeout branch or by the submit
button; both run the identical `advance` update). -/
inductive Reachable : Session → Prop
  | init (name : String) (qs : List Question) : Reachable (initSession name qs)
  | step (s : Session) (sel : Option String) : Reachable s → Reachable (advance s sel).1

/-- Concrete record used in examples: player A with score 5 and 80%. -/
def exA : AttemptRecord := { name := "A", score := 5, total := 6, percentage := 80 }

/-- Concrete record used in examples: player B with score 5 and 90%. -/
def exB : AttemptRecord := { name := "B", score := 5, total := 6, percentage := 90 }

/-- Concrete record used in examples: player C with score 3 and 100%. -/
def exC : AttemptRecord := { name := "C", score := 3, total := 3, percentage := 100 }

/-- Concrete question used in examples. -/
def exQ : Question :=
  { question := "Capital of France?", options := "Paris;Rome", answer := "Paris" }

/-- Concrete one-question session used in examples. -/
def exS : Session := initSession "Pat" [exQ]

/-- Concrete question whose stated answer is not among its options. -/
def badQuestion : Question := { question := "Pick one", options := "A;B", answer := "C" }

/-- Concrete mid-quiz `st.session_state` snapshot used in examples: one
question already answered, with its `timer_{0}`, `timer_start_{0}` and
`answer_{0}` keys present. -/
def exApp : AppState :=
  { player_name := some "Pat"
    shuffled_questions := some [exQ]
    current_q := some 1
    score := some 1
    colors := some ["rgb(200,200,200)"]
    timer_init := [(0, 15)]
    timer_start := [(0, 1000)]
    answers := [(0, some "Paris")] }

/-! ## Helper lemmas -/

/-- The question-advance transition, written out: when `current_q` points at
question `q`, the score gains one exactly on a matching selection, the saved
row carries the new score and `current_q + 1`, and `current_q` advances. -/
theorem advance_eq (s : Session) (q : Question) (sel : Option String)
    (hq : s.shuffled_questions[s.current_q]? = some q) :
    advance s sel =
      ({ s with
          score := s.score + (if sel = some q.answer then 1 else 0)
          current_q := s.current_q + 1 },
        some (save_score s.player_name
          (s.score + (if sel = some q.answer then 1 else 0)) (s.current_q + 1))) := by
  unfold advance
  rw [hq]

/-! ## Claim theorems -/

/-- C2: for every reachable session state — the fresh session followed by any
sequence of completed question-advance transitions, whether triggered by the
submit button or by timer expiry — the invariant `score ≤ current_q` holds;
moreover each advance from an in-progress position increments `current_q` by
exactly one and increments `score` by at most one. -/
theorem session_invariant (s : Session) (h : Reachable s) :
    s.score ≤ s.current_q
    ∧ ∀ sel q, s.shuffled_questions[s.current_q]? = some q →
        (advance s sel).1.current_q = s.current_q + 1
        ∧ s.score ≤ (advance s sel).1.score
        ∧ (advance s sel).1.score ≤ s.score + 1 := by
  have inv : ∀ t : Session, Reachable t → t.score ≤ t.current_q := by
    intro t ht
    induction ht with
    | init name qs => exact Nat.le_refl 0
    | step t sel _ ih =>
      unfold advance
      cases hq : t.shuffled_questions[t.current_q]? with
      | none => exact ih
      | some q =>
        simp only
        split
        · omega
        · omega
  refine ⟨inv s h, ?_⟩
  intro sel q hq
  rw [advance_eq s q sel hq]
  refine ⟨rfl, ?_, ?_⟩
  · simp only
    omega
  · simp only
    split
    · omega
    · omega

/-- C2 witness: the invariant holds at the concrete fresh session. -/
theorem session_invariant_witness :
    (initSession "Ada" [exQ]).score ≤ (initSession "Ada" [exQ]).current_q :=
  (session_invariant (initSession "Ada" [exQ]) (Reachable.init "Ada" [exQ])).1

/-- C3: on an advance from in-progress position `i` with current question
`q`, the recorded selection is compared with `q.answer`; the score gains one
exactly when they are equal (and is unchanged otherwise); and the appended
Attempt row is `(player_name, new score, i + 1, round(new score / (i+1) * 100, 2))`,
built from the already-incremented score and the not-yet-incremented index —
i.e. the write happens between the score update and the `current_q`
advance — after which `current_q` becomes `i + 1`. -/
theorem advance_writes_record (s : Session) (q : Question) (sel : Option String)
    (hq : s.shuffled_questions[s.current_q]? = some q) :
    ((advance s sel).1.score = s.score + 1 ↔ sel = some q.answer)
    ∧ (sel ≠ some q.answer → (advance s sel).1.score = s.score)
    ∧ (advance s sel).1.current_q = s.current_q + 1
    ∧ (advance s sel).2 = some
        { name := s.player_name
          score := (advance s sel).1.score
          total := s.current_q + 1
          percentage :=
            pyRound2 (mkRat (100 * ((advance s sel).1.score : Int)) (s.current_q + 1)) } := by
  rw [advance_eq s q sel hq]
  by_cases hsel : sel = some q.answer
  · simp [hsel, save_score]
  · simp [hsel, save_score]

/-- C3 witness: advancing the concrete one-question session with the correct
selection appends exactly the row built from the new score and index 1. -/
theorem advance_writes_record_witness :
    (advance exS (some "Paris")).2 = some
      { name := exS.player_name
        score := (advance exS (some "Paris")).1.score
        total := exS.current_q + 1
        percentage :=
          pyRound2 (mkRat (100 * ((advance exS (some "Paris")).1.score : Int))
            (exS.current_q + 1)) } :=
  (advance_writes_record exS exQ (some "Paris") (by decide)).2.2.2

/-- C9: when the per-question timer reaches zero (`remaining = 0`), the
advance fires without any submit press, and the score gains one exactly when
the radio selection stored for the current question equals the correct
answer; a question with no selection at all (`none`) never earns the point;
and with remaining time left, the timeout branch does nothing. -/
theorem timeout_scores_selection (s : Session) (q : Question) (sel : Option String)
    (hq : s.shuffled_questions[s.current_q]? = some q) :
    ((timeoutAdvance s sel 0).1.score = s.score + 1 ↔ sel = some q.answer)
    ∧ (sel = none → (timeoutAdvance s sel 0).1.score = s.score)
    ∧ (timeoutAdvance s sel 0).1.current_q = s.current_q + 1
    ∧ ∀ rem : Int, rem ≠ 0 → timeoutAdvance s sel rem = (s, none) := by
  have h0 : timeoutAdvance s sel 0 = advance s sel := by
    unfold timeoutAdvance
    simp
  rw [h0, advance_eq s q sel hq]
  refine ⟨?_, ?_, rfl, ?_⟩
  · by_cases hsel : sel = some q.answer
    · simp [hsel]
    · simp [hsel]
  · intro hnone
    subst hnone
    simp
  · intro rem hrem
    unfold timeoutAdvance
    simp [hrem]

/-- C9 witness: with the selection left on the correct option and no submit,
timer expiry on the concrete session earns the point; with no selection it
would not. -/
theorem timeout_scores_selection_witness :
    (timeoutAdvance exS (some "Paris") 0).1.score = exS.score + 1 ↔
      some "Paris" = some exQ.answer :=
  (timeout_scores_selection exS exQ (some "Paris") (by decide)).1

/-- C4: the remaining time recomputed on a render pass from the stored start
timestamp is `max(15 - elapsed, 0)`: it is 15 at elapsed 0, it is 0 at
elapsed 15, it is 0 (never negative) at every elapsed time past 15, and it
is never negative. -/
theorem remaining_time_spec (start e : Int) (h : 0 ≤ e) :
    remainingAt start (start + e) = max (15 - e) 0
    ∧ remainingAt start start = 15
    ∧ remainingAt start (start + 15) = 0
    ∧ (15 ≤ e → remainingAt start (start + e) = 0)
    ∧ 0 ≤ remainingAt start (start + e) := by
  unfold remainingAt remainingTime time_limit
  refine ⟨?_, ?_, ?_, ?_, ?_⟩ <;> omega

/-- C4 witness: quiz clock at 20 seconds past a start stamp of 1000. -/
theorem remaining_time_spec_witness :
    remainingAt 1000 (1000 + 20) = max (15 - 20) 0
    ∧ remainingAt 1000 1000 = 15
    ∧ remainingAt 1000 (1000 + 15) = 0
    ∧ (15 ≤ (20 : Int) → remainingAt 1000 (1000 + 20) = 0)
    ∧ 0 ≤ remainingAt 1000 (1000 + 20) :=
  remaining_time_spec 1000 20 (by decide)

/-- C1: for every record set and player name, the leaderboard computation
stable-sorts the records by score descending then percentage descending —
the output is a permutation of the input, it is sorted for the descending
composite key, and any two records in key order keep their relative input
order (stability) — `top5` is the first `min(5, len(records))` records of
the sorted sequence, and `player_rank` is `some (k+1)` exactly when position
`k` of the sorted sequence holds the first record whose name equals the
player's; in particular
`rank [{A,5,80}, {B,5,90}, {C,3,100}] "B" = ([B, A, C], rank 1)`. -/
theorem rank_spec (records : List AttemptRecord) (player : String) :
    (rank records player).1 = (sortRecords records).take 5
    ∧ (rank records player).1.length = min 5 records.length
    ∧ (sortRecords records).Perm records
    ∧ (sortRecords records).Sorted recLE
    ∧ (∀ a b : AttemptRecord, recLE a b → List.Sublist [a, b] records →
        List.Sublist [a, b] (sortRecords records))
    ∧ (∀ k : Nat, (rank records player).2 = some (k + 1) ↔
        ∃ r, (sortRecords records)[k]? = some r ∧ r.name = player
          ∧ ∀ j, j < k → ∀ r2, (sortRecords records)[j]? = some r2 →
              r2.name ≠ player)
    ∧ rank [exA, exB, exC] "B" = ([exB, exA, exC], some 1) := by
  refine ⟨rfl, ?_, ?_, ?_, ?_, ?_, by decide⟩
  · show ((sortRecords records).take 5).length = min 5 records.length
    rw [List.length_take]
    unfold sortRecords
    rw [List.length_insertionSort]
  · exact List.perm_insertionSort recLE records
  · exact List.sorted_insertionSort recLE records
  · intro a b hab hsub
    exact List.pair_sublist_insertionSort hab hsub
  · intro k
    show (((sortRecords records).findIdx? (fun r => r.name == player)).map (· + 1)
        = some (k + 1)) ↔ _
    constructor
    · intro hsome
      rw [Option.map_eq_some'] at hsome
      obtain ⟨i, hi, hik⟩ := hsome
      have hik2 : k = i := by omega
      subst hik2
      rw [List.findIdx?_eq_some_iff_getElem] at hi
      obtain ⟨hlt, hp, hprev⟩ := hi
      refine ⟨(sortRecords records).get ⟨k, hlt⟩, ?_, ?_, ?_⟩
      · simp [List.getElem?_eq_getElem hlt]
      · simpa using hp
      · intro j hj r2 hr2
        have hjlt : j < (sortRecords records).length := Nat.lt_trans hj hlt
        rw [List.getElem?_eq_getElem hjlt] at hr2
        have hpj := hprev j hj
        simp only [Option.some.injEq] at hr2
        subst hr2
        simpa using hpj
    · rintro ⟨r, hr, hname, hprev⟩
      rw [Option.map_eq_some']
      refine ⟨k, ?_, rfl⟩
      rw [List.findIdx?_eq_some_iff_getElem]
      rcases List.getElem?_eq_some.mp hr with ⟨hlt, hget⟩
      refine ⟨hlt, ?_, ?_⟩
      · simp [hget, hname]
      · intro j hj
        have hjlt : j < (sortRecords records).length := Nat.lt_trans hj hlt
        have hne := hprev j hj ((sortRecords records).get ⟨j, hjlt⟩)
          (by simp [List.getElem?_eq_getElem hjlt])
        simpa using hne

/-- C1 witness: the concrete three-record example sorts to `[B, A, C]` with
player B ranked first. -/
theorem rank_spec_witness :
    rank [exA, exB, exC] "B" = ([exB, exA, exC], some 1) :=
  (rank_spec [exA, exB, exC] "B").2.2.2.2.2.2

/-- C10: the Completed-state rank lookup presupposes that the store holds at
least one row whose `Name` equals the session's player name: for every
record set with no such row, the boolean mask selects no position and the
lookup `rank_df.index[...][0]` has no result — `player_rank` is `none`,
modelling the `IndexError` that aborts the completion render. -/
theorem player_rank_requires_match (records : List AttemptRecord) (player : String)
    (h : ∀ r ∈ records, r.name ≠ player) :
    player_rank records player = none := by
  unfold player_rank
  have hfind : (sortRecords records).findIdx? (fun r => r.name == player) = none := by
    rw [List.findIdx?_eq_none_iff]
    intro r hr
    have hmem : r ∈ records := by
      have := List.mem_insertionSort recLE (l := records) (x := r)
      exact this.mp hr
    simp only [beq_eq_false_iff_ne]
    exact h r hmem
  rw [hfind]
  rfl

/-- C10 witness: a store holding only player A's row yields no rank for an
unknown player name. -/
theorem player_rank_requires_match_witness : player_rank [exA] "Zed" = none :=
  player_rank_requires_match [exA] "Zed" (by decide)

/-- C5 counterexample: the claim says a failing Score Store write leaves
score and `current_q` advancing exactly as on a successful write.  On the
concrete one-question session with the correct answer selected, the failing
write leaves `current_q` different from the successful write: `save_score`
has no handler, so the exception aborts the pass before the `current_q`
increment. -/
theorem write_failure_counterexample :
    (resultSession (advanceWithWrite exS exQ (some "Paris") false)).current_q ≠
      (resultSession (advanceWithWrite exS exQ (some "Paris") true)).current_q := by
  decide

/-- C5 amended: a failing Score Store write during a question-advance is not
handled: the exception propagates out of the render pass after the score
update but before the index update, so the session keeps the (possibly
incremented) score while `current_q` does not advance, and no row is
appended. -/
theorem write_failure_aborts_advance (s : Session) (q : Question) (sel : Option String) :
    advanceWithWrite s q sel false =
      Except.error { s with score := s.score + (if sel = some q.answer then 1 else 0) }
    ∧ (resultSession (advanceWithWrite s q sel false)).current_q = s.current_q
    ∧ (resultSession (advanceWithWrite s q sel false)).score =
        s.score + (if sel = some q.answer then 1 else 0)
    ∧ advanceWithWrite s q sel true =
      Except.ok ({ s with
          score := s.score + (if sel = some q.answer then 1 else 0)
          current_q := s.current_q + 1 },
        save_score s.player_name
          (s.score + (if sel = some q.answer then 1 else 0)) (s.current_q + 1)) :=
  ⟨rfl, rfl, rfl, rfl⟩

/-- C5 amended witness: the concrete failing write keeps `current_q` at 0. -/
theorem write_failure_aborts_advance_witness :
    (resultSession (advanceWithWrite exS exQ (some "Paris") false)).current_q =
      exS.current_q :=
  (write_failure_aborts_advance exS exQ (some "Paris")).2.1

/-- C6 counterexample: the claim says a failing store read yields an empty
top5 without raising past the render boundary; in fact `load_leaderboard`
has no handler, so the in-progress leaderboard computation propagates the
error and does not produce the empty leaderboard. -/
theorem read_failure_counterexample :
    renderTop5 ReadResult.err = Except.error ()
    ∧ renderTop5 ReadResult.err ≠ Except.ok [] := by
  refine ⟨rfl, ?_⟩
  intro h
  exact Except.noConfusion h

/-- C6 amended: a failing store read during an in-progress render propagates
past the render boundary (the pass raises rather than rendering a
placeholder); only a successful read renders, and a successful read of an
empty store renders an empty top5. -/
theorem read_failure_propagates (rows : List AttemptRecord) :
    renderTop5 ReadResult.err = Except.error ()
    ∧ renderTop5 (ReadResult.ok []) = Except.ok []
    ∧ renderTop5 (ReadResult.ok rows) = Except.ok ((sortRecords rows).take 5) :=
  ⟨rfl, rfl, rfl⟩

/-- C6 amended witness: instantiated at the single-record store. -/
theorem read_failure_propagates_witness :
    renderTop5 (ReadResult.ok [exA]) = Except.ok ((sortRecords [exA]).take 5) :=
  (read_failure_propagates [exA]).2.2

/-- C7 counterexample: the claim says restart discards the per-question
timer state; on the concrete post-quiz state the restart handler leaves the
`timer_start_{0}` entry (and every other per-question key) in place, because
lines 268-270 delete only `shuffled_questions`, `current_q`, `score` and
`colors`. -/
theorem restart_keeps_timer_state :
    (restart exApp).timer_start = exApp.timer_start
    ∧ (restart exApp).timer_start ≠ []
    ∧ (restart exApp).answers = exApp.answers := by
  refine ⟨rfl, ?_, rfl⟩
  decide

/-- C7 amended: the explicit restart action discards the question order, the
current index, the score (and the color cache) and leaves every previously
written Attempt record in the Score Store intact — a read-all immediately
after restart returns the pre-restart records — but it does not discard the
per-question timer and answer entries, which persist. -/
theorem restart_effect (st : AppState) (store : List AttemptRecord) :
    (restart st).shuffled_questions = none
    ∧ (restart st).current_q = none
    ∧ (restart st).score = none
    ∧ (restart st).colors = none
    ∧ (restart st).player_name = st.player_name
    ∧ (restart st).timer_init = st.timer_init
    ∧ (restart st).timer_start = st.timer_start
    ∧ (restart st).answers = st.answers
    ∧ (restartWithStore st store).2 = store :=
  ⟨rfl, rfl, rfl, rfl, rfl, rfl, rfl, rfl, rfl⟩

/-- C7 amended witness: after restarting the concrete state, the store still
returns the pre-restart record. -/
theorem restart_effect_witness :
    (restartWithStore exApp [exA]).2 = [exA] :=
  (restart_effect exApp [exA]).2.2.2.2.2.2.2.2

/-- C8 counterexample: the claim says `load_questions` fails on a malformed
source, in particular on a question whose option list does not contain its
stated answer; in fact the loader performs no content validation — the
concrete bank whose only question has answer "C" and options ["A", "B"]
loads successfully. -/
theorem load_questions_no_validation :
    load_questions (some [badQuestion]) = Except.ok [badQuestion]
    ∧ ¬ (badQuestion.answer ∈ parseOptions badQuestion.options) := by
  refine ⟨rfl, ?_⟩
  decide

/-- C8 amended: `load_questions` fails — fatally, with no partial
recovery — exactly when the question source is missing or unreadable; a
readable source is returned as-is with no content validation, so a question
whose option list does not contain its stated answer loads without error. -/
theorem load_questions_spec (rows : List Question) :
    load_questions none = Except.error ()
    ∧ load_questions (some rows) = Except.ok rows
    ∧ ∀ res, load_questions res = Except.error () ↔ res = none := by
  refine ⟨rfl, rfl, ?_⟩
  intro res
  cases res with
  | none => exact ⟨fun _ => rfl, fun _ => rfl⟩
  | some rows2 =>
    constructor
    · intro h
      exact Except.noConfusion h
    · intro h
      exact Option.noConfusion h

/-- C8 amended witness: the bank containing the mismatched question loads
without error. -/
theorem load_questions_spec_witness :
    load_questions (some [badQuestion]) = Except.ok [badQuestion] :=
  (load_questions_spec [badQuestion]).2.1

end QuizApp
